import Mathlib

/-!
Verification of the packr configuration-resolution and process-handoff layer
(`index.js`).  The JavaScript source is shallowly embedded: POSIX path
arithmetic (`path.resolve`, `path.relative`, `path.basename`, `path.dirname`,
`path.join`) is modelled on segment lists, the process environment as an
association list, environment files as lists of lines, and the effectful
`packr` entry point as a pure function returning the outcome together with the
list of file-write / process-spawn effects it performed.
-/

namespace Packr

/-- Split a list of characters at every occurrence of `c` (JavaScript
`String.prototype.split` with a one-character separator: empty pieces are
kept, and the empty string yields a single empty piece). -/
def splitSegsAux (c : Char) : List Char → List (List Char)
  | [] => [[]]
  | x :: xs =>
    let r := splitSegsAux c xs
    if x = c then [] :: r
    else
      match r with
      | [] => [[x]]
      | h :: t => (x :: h) :: t

/-- Split a string at every occurrence of the character `c`. -/
def splitStr (c : Char) (s : String) : List String :=
  (splitSegsAux c s.data).map (fun l => String.mk l)

/-- The nonempty `/`-separated segments of a POSIX path string. -/
def segsOf (s : String) : List String :=
  (splitStr '/' s).filter (fun x => x ≠ "")

/-- `pre` is a prefix of `s` (JavaScript `String.prototype.startsWith`,
Node's `relative.startsWith('..')` check). -/
def strStarts (s pre : String) : Bool :=
  pre.data.isPrefixOf s.data

/-- `path.isAbsolute` for POSIX paths: the path begins with a slash. -/
def isAbsolute (p : String) : Bool := strStarts p "/"

/-- One step of POSIX path normalization: `.` segments are dropped and `..`
segments pop the previous real segment (at the root of an absolute path a
`..` is discarded; in a relative path leading `..`s accumulate).  The stack
is kept in reverse order. -/
def normStep (abs : Bool) (stack : List String) (seg : String) : List String :=
  if seg = "." then stack
  else if seg = ".." then
    match stack with
    | [] => if abs then [] else [".."]
    | top :: rest => if top = ".." then seg :: top :: rest else rest
  else seg :: stack

/-- Normalize a segment list (the segment phase of Node's
`path.normalize`/`path.resolve`). -/
def normSegs (abs : Bool) (segs : List String) : List String :=
  (segs.foldl (normStep abs) []).reverse

/-- Join segments back into a path body. -/
def joinSegs (segs : List String) : String :=
  String.intercalate "/" segs

/-- Node `path.resolve(base, p)` with working directory `cwd` (Node prepends
the working directory when no argument is absolute; `cwd`, being
`process.cwd()`, is itself absolute).  The result is a normalized absolute
path. -/
def resolveP (cwd base p : String) : String :=
  "/" ++ joinSegs (normSegs true
    (if isAbsolute p then segsOf p
     else if isAbsolute base then segsOf base ++ segsOf p
     else segsOf cwd ++ segsOf base ++ segsOf p))

/-- The segments of `path.resolve(p)` against working directory `cwd`. -/
def resolveSegs (cwd p : String) : List String :=
  normSegs true (if isAbsolute p then segsOf p else segsOf cwd ++ segsOf p)

/-- Drop the longest shared leading run of two segment lists, returning the
two remainders (the common-ancestor computation of `path.relative`). -/
def dropShared : List String → List String → List String × List String
  | a :: as, b :: bs => if a = b then dropShared as bs else (a :: as, b :: bs)
  | as, bs => (as, bs)

/-- Node `path.relative(fromP, toP)` with working directory `cwd`: both
arguments are resolved, the shared leading segments are removed, and every
remaining segment of the origin becomes a `..` step. -/
def relativeP (cwd fromP toP : String) : String :=
  let p := dropShared (resolveSegs cwd fromP) (resolveSegs cwd toP)
  joinSegs (p.1.map (fun _ => "..") ++ p.2)

/-- `isPathInside(childPath, parentPath)` from `index.js`: the relative path
from the parent to the child neither starts with `..` nor is absolute. -/
def isPathInside (cwd childPath parentPath : String) : Bool :=
  let rel := relativeP cwd parentPath childPath
  !(strStarts rel "..") && !(isAbsolute rel)

/-- Node `path.basename`: the last nonempty segment of the path. -/
def basenameP (p : String) : String :=
  ((segsOf p).getLast?).getD ""

/-- Node `path.dirname`, for the absolute (already resolved) paths the
program applies it to: everything before the last segment. -/
def dirnameP (p : String) : String :=
  if isAbsolute p then "/" ++ joinSegs (segsOf p).dropLast
  else
    match (segsOf p).dropLast with
    | [] => "."
    | segs => joinSegs segs

/-- Node `path.normalize` restricted to the segment phase. -/
def normalizeP (p : String) : String :=
  if isAbsolute p then "/" ++ joinSegs (normSegs true (segsOf p))
  else
    match normSegs false (segsOf p) with
    | [] => "."
    | segs => joinSegs segs

/-- Node `path.join(a, b)`: concatenate the nonempty parts and normalize. -/
def joinP (a b : String) : String :=
  if a = "" && b = "" then "."
  else if a = "" then normalizeP b
  else if b = "" then normalizeP a
  else normalizeP (a ++ "/" ++ b)

/-- `resolveSafe(p, baseDir)` from `packr` in `index.js`: resolve `p` against
`baseDir` and fail unless the result stays inside the trusted root
(`PROJECT_ROOT`, the working directory captured at module load). -/
def resolveSafe (root p baseDir : String) : Except String String :=
  let resolved := resolveP root baseDir p
  if !(isPathInside root resolved root) then
    Except.error ("Unsafe path detected: " ++ p)
  else Except.ok resolved

/-! ### Process environment and environment files (`loadEnvFromFile`, `loadEnvFiles`) -/

/-- The process environment (`process.env`): an association list read through
`getEnv`. -/
def Env : Type := List (String × String)

/-- Read a variable (`process.env[k]`). -/
def getEnv (env : Env) (k : String) : Option String :=
  (env.find? (fun kv => kv.1 == k)).map (fun kv => kv.2)

/-- The `key in process.env` membership test. -/
def envHas (env : Env) (k : String) : Bool :=
  (env.find? (fun kv => kv.1 == k)).isSome

/-- Assignment `process.env[k] = v`. -/
def setEnv (env : Env) (k v : String) : Env :=
  (k, v) :: env.filter (fun kv => kv.1 != k)

/-- Remove a variable from the environment. -/
def eraseEnv (env : Env) (k : String) : Env :=
  env.filter (fun kv => kv.1 != k)

/-- JavaScript truthiness of a possibly-undefined string: defined and
nonempty. -/
def jsTruthy : Option String → Bool
  | some s => s ≠ ""
  | none => false

/-- JavaScript `a || b` on possibly-undefined strings. -/
def jsOr (a b : Option String) : Option String :=
  if jsTruthy a then a else b

/-- JavaScript `a || d` with a defined (truthy) string default. -/
def jsOrD (a : Option String) (d : String) : String :=
  if jsTruthy a then a.getD "" else d

/-- JavaScript whitespace test used by `String.prototype.trim`. -/
def isWhite (c : Char) : Bool :=
  c = ' ' || c = Char.ofNat 9 || c = Char.ofNat 10 || c = Char.ofNat 11 ||
    c = Char.ofNat 12 || c = Char.ofNat 13

/-- JavaScript `String.prototype.trim`. -/
def trimStr (s : String) : String :=
  String.mk (((s.data.dropWhile isWhite).reverse.dropWhile isWhite).reverse)

/-- A double or single quote character. -/
def isQuote (c : Char) : Bool :=
  c = Char.ofNat 34 || c = Char.ofNat 39

/-- The quote-stripping `value.replace(/^["']|["']$/g, '')` of
`loadEnvFromFile`: one leading and one trailing quote character are
removed. -/
def stripQuotes (v : String) : String :=
  let l1 :=
    match v.data with
    | c :: rest => if isQuote c then rest else v.data
    | [] => []
  let l2 :=
    match l1.reverse with
    | c :: rest => if isQuote c then rest.reverse else l1
    | [] => l1
  String.mk l2

/-- Parse one line of an environment file, as `loadEnvFromFile` does: skip
blank lines and `#` comments, split on `=`, and return the raw key (the
`key in process.env` test uses it untrimmed) together with the trimmed,
quote-stripped value. -/
def parseLine (line : String) : Option (String × String) :=
  let trimmed := trimStr line
  if trimmed = "" then none
  else if strStarts trimmed "#" then none
  else
    match splitStr '=' trimmed with
    | [] => none
    | key :: rest =>
      some (key, stripQuotes (trimStr (String.intercalate "=" rest)))

/-- Apply one parsed environment-file line to the environment: the value is
stored under the trimmed key when `override` is set or the raw key is not
yet defined. -/
def applyLine (override : Bool) (env : Env) (line : String) : Env :=
  match parseLine line with
  | none => env
  | some kv =>
    if override || !(envHas env kv.1) then setEnv env (trimStr kv.1) kv.2
    else env

/-- An environment file on disk: its permission bits and its lines. -/
structure EnvFile where
  mode : Nat
  lines : List String

/-- The file system visible to the environment loader. -/
def FS : Type := List (String × EnvFile)

/-- `fs.existsSync` + `fs.readFileSync` for environment files. -/
def lookupFile (fs : FS) (p : String) : Option EnvFile :=
  (fs.find? (fun e => e.1 == p)).map (fun e => e.2)

/-- `loadEnvFromFile(filepath, override)` from `index.js`: a missing file is
ignored; a file whose permission bits are not `0o600` while `NODE_ENV` is
`production` makes `ErrorHandler.handleError` rethrow; otherwise every line
is applied in order.  (The sensitive-key scanning in the source only logs
warnings and changes no state, so it is not modelled.) -/
def loadEnvFromFile (fs : FS) (filepath : String) (override : Bool)
    (env : Env) : Except String Env :=
  match lookupFile fs filepath with
  | none => Except.ok env
  | some f =>
    if (f.mode &&& 0o777 != 0o600)
        && (getEnv env "NODE_ENV" == some "production") then
      Except.error ("Insecure permissions on environment file: " ++ filepath)
    else
      Except.ok (f.lines.foldl (fun e l => applyLine override e l) env)

/-- `process.env.NODE_ENV || 'development'`. -/
def nodeEnvOf (env : Env) : String :=
  match getEnv env "NODE_ENV" with
  | some s => if s = "" then "development" else s
  | none => "development"

/-- The required production variables checked by `loadEnvFiles`. -/
def requiredVars : List String :=
  ["PACKR_SCSS_INPUT", "PACKR_SCSS_OUTPUT", "PACKR_JS_INPUT", "PACKR_JS_OUTPUT"]

/-- Lower-case a string (for the case-insensitive regexes of the source). -/
def lowerStr (s : String) : String :=
  String.mk (s.data.map Char.toLower)

/-- `needle` occurs as a contiguous run inside `hay`. -/
def listInfix (needle : List Char) : List Char → Bool
  | [] => needle.isEmpty
  | c :: t => needle.isPrefixOf (c :: t) || listInfix needle t

/-- Case-insensitive substring test (`/pat/i.test(s)` for a literal
pattern). -/
def containsCI (s pat : String) : Bool :=
  listInfix pat.data (lowerStr s).data

/-- The production check on placeholder values: `PACKR_`-prefixed variables
whose name looks secret-like and whose value looks like an example value. -/
def sensitiveProdViolations (env : Env) : List String :=
  (env.map (fun kv => kv.1)).filter (fun k =>
    strStarts k "PACKR_"
      && (containsCI k "key" || containsCI k "token" || containsCI k "secret"
            || containsCI k "password")
      && (containsCI ((getEnv env k).getD "") "example"
            || containsCI ((getEnv env k).getD "") "test"
            || containsCI ((getEnv env k).getD "") "dummy"))

/-- The file-loading phase of `loadEnvFiles` (steps 1–3): the base `.env`
without override, the `.env-<mode>` file with override, and — in development
mode when `.env-local` exists — the local file with override but with the
`PACKR_SOURCEMAP` value saved before the load and restored afterwards when it
was set.  Returns the runtime mode together with the loaded environment. -/
def loadEnvFilesCore (fs : FS) (env0 : Env) : Except String (String × Env) :=
  match loadEnvFromFile fs ".env" false env0 with
  | Except.error e => Except.error e
  | Except.ok env1 =>
    match loadEnvFromFile fs (".env-" ++ nodeEnvOf env1) true env1 with
    | Except.error e => Except.error e
    | Except.ok env2 =>
      if nodeEnvOf env1 == "development"
          && (lookupFile fs ".env-local").isSome then
        match loadEnvFromFile fs ".env-local" true env2 with
        | Except.error e => Except.error e
        | Except.ok env3 =>
          match getEnv env2 "PACKR_SOURCEMAP" with
          | some v =>
            Except.ok (nodeEnvOf env1, setEnv env3 "PACKR_SOURCEMAP" v)
          | none => Except.ok (nodeEnvOf env1, env3)
      else Except.ok (nodeEnvOf env1, env2)

/-- The production-only checks at the end of `loadEnvFiles`: all required
variables truthy and no sensitive placeholder values. -/
def prodChecks (nodeEnv : String) (env : Env) : Except String Env :=
  if nodeEnv == "production" then
    if ((requiredVars.filter (fun k => !(jsTruthy (getEnv env k)))).length > 0) then
      Except.error "Missing required environment variables"
    else if (sensitiveProdViolations env).length > 0 then
      Except.error
        "Production environment contains example/test values for sensitive variables"
    else Except.ok env
  else Except.ok env

/-- `loadEnvFiles()` from `index.js`. -/
def loadEnvFiles (fs : FS) (env0 : Env) : Except String Env :=
  match loadEnvFilesCore fs env0 with
  | Except.error e => Except.error e
  | Except.ok r => prodChecks r.1 r.2

/-! ### Configuration merge (`userConfig` in `index.js`) -/

/-- The `uglify` sub-object of the programmatic options (camelCase keys,
each possibly absent). -/
structure UglifyOptions where
  mangle : Option Bool := none
  keepFnames : Option Bool := none
  keepClassnames : Option Bool := none
  reserved : Option String := none

/-- The programmatic options accepted by `packr(options)`. -/
structure Options where
  config : Option String := none
  scssInput : Option String := none
  scssOutput : Option String := none
  jsInput : Option String := none
  jsOutput : Option String := none
  cssDestination : Option String := none
  jsDestination : Option String := none
  minify : Option Bool := none
  minifyJs : Option Bool := none
  minifyCss : Option Bool := none
  uglify : Option UglifyOptions := none
  target : Option String := none
  watch : Option Bool := none
  verbose : Option Bool := none
  sourcemap : Option Bool := none
  format : Option String := none

/-- The `uglify` sub-object of a JSON config file (snake_case keys). -/
structure UglifyFile where
  mangle : Option Bool := none
  keep_fnames : Option Bool := none
  keep_classnames : Option Bool := none
  reserved : Option String := none

/-- The contents of a JSON config file; every field may be absent.  An
absent file is the empty object `{}`. -/
structure ConfigFile where
  scss_input : Option String := none
  scss_output : Option String := none
  js_input : Option String := none
  js_output : Option String := none
  css_destination : Option String := none
  js_destination : Option String := none
  minify : Option Bool := none
  minify_js : Option Bool := none
  minify_css : Option Bool := none
  uglify : Option UglifyFile := none
  target : Option String := none
  verbose : Option Bool := none
  sourcemap : Option Bool := none
  format : Option String := none
  eslint : Option Bool := none
  eslint_config : Option String := none

/-- The merged `uglify` record of `userConfig`. -/
structure Uglify where
  mangle : Bool := true
  keep_fnames : Bool := false
  keep_classnames : Bool := false
  reserved : List String := []
deriving DecidableEq

/-- The merged `userConfig` object of `packr`. -/
structure UserConfig where
  scss_input : Option String := none
  scss_output : Option String := none
  js_input : Option String := none
  js_output : Option String := none
  css_destination : Option String := none
  js_destination : Option String := none
  minify : Bool := true
  minify_js : Bool := true
  minify_css : Bool := true
  uglify : Uglify := {}
  target : String := "es2020"
  verbose : Bool := false
  sourcemap : Bool := false
  format : String := "iife"
  eslint : Bool := false
  eslint_config : Option String := none
deriving DecidableEq

/-- The `userConfig` merge of `index.js` lines 204–261, transcribed
field by field (`a || b` chains become `jsOr`, `x !== undefined ? x : y`
becomes a match on the option, `env.V === 'true'` / `!== 'false'` become
equality tests on `getEnv`). -/
def userConfig (env : Env) (options : Options) (configFromFile : ConfigFile) :
    UserConfig where
  scss_input :=
    jsOr (getEnv env "PACKR_SCSS_INPUT")
      (jsOr options.scssInput configFromFile.scss_input)
  scss_output :=
    jsOr (getEnv env "PACKR_SCSS_OUTPUT")
      (jsOr options.scssOutput configFromFile.scss_output)
  js_input :=
    jsOr (getEnv env "PACKR_JS_INPUT")
      (jsOr options.jsInput configFromFile.js_input)
  js_output :=
    jsOr (getEnv env "PACKR_JS_OUTPUT")
      (jsOr options.jsOutput configFromFile.js_output)
  css_destination :=
    jsOr (getEnv env "PACKR_CSS_DESTINATION")
      (jsOr options.cssDestination configFromFile.css_destination)
  js_destination :=
    jsOr (getEnv env "PACKR_JS_DESTINATION")
      (jsOr options.jsDestination configFromFile.js_destination)
  minify :=
    (getEnv env "PACKR_MINIFY" == some "true")
      || ((getEnv env "PACKR_MINIFY" != some "false")
        && (match options.minify with
            | some b => b
            | none =>
              match configFromFile.minify with
              | some b => b
              | none => true))
  minify_js :=
    (getEnv env "PACKR_MINIFY_JS" == some "true")
      || ((getEnv env "PACKR_MINIFY_JS" != some "false")
        && (match options.minifyJs with
            | some b => b
            | none =>
              match configFromFile.minify_js with
              | some b => b
              | none => true))
  minify_css :=
    (getEnv env "PACKR_MINIFY_CSS" == some "true")
      || ((getEnv env "PACKR_MINIFY_CSS" != some "false")
        && (match options.minifyCss with
            | some b => b
            | none =>
              match configFromFile.minify_css with
              | some b => b
              | none => true))
  uglify :=
    { mangle :=
        (getEnv env "PACKR_UGLIFY_MANGLE" == some "true")
          || ((getEnv env "PACKR_UGLIFY_MANGLE" != some "false")
            && (match options.uglify.bind (fun u => u.mangle) with
                | some b => b
                | none =>
                  match configFromFile.uglify.bind (fun u => u.mangle) with
                  | some b => b
                  | none => true))
      keep_fnames :=
        (getEnv env "PACKR_UGLIFY_KEEP_FNAMES" == some "true")
          || (match options.uglify.bind (fun u => u.keepFnames) with
              | some b => b
              | none =>
                match configFromFile.uglify.bind (fun u => u.keep_fnames) with
                | some b => b
                | none => false)
      keep_classnames :=
        (getEnv env "PACKR_UGLIFY_KEEP_CLASSNAMES" == some "true")
          || (match options.uglify.bind (fun u => u.keepClassnames) with
              | some b => b
              | none =>
                match configFromFile.uglify.bind (fun u => u.keep_classnames) with
                | some b => b
                | none => false)
      reserved :=
        (splitStr ','
            (jsOrD
              (jsOr (getEnv env "PACKR_UGLIFY_RESERVED")
                (jsOr (options.uglify.bind (fun u => u.reserved))
                  (configFromFile.uglify.bind (fun u => u.reserved))))
              "")).filter (fun s => s ≠ "") }
  target :=
    jsOrD (jsOr (getEnv env "PACKR_TARGET")
      (jsOr options.target configFromFile.target)) "es2020"
  verbose :=
    (getEnv env "PACKR_VERBOSE" == some "true")
      || (match options.verbose with
          | some b => b
          | none => false)
      || (match configFromFile.verbose with
          | some b => b
          | none => false)
      || false
  sourcemap :=
    if getEnv env "PACKR_SOURCEMAP" == some "true" then true
    else if getEnv env "PACKR_SOURCEMAP" == some "false" then false
    else
      match options.sourcemap with
      | some b => b
      | none =>
        match configFromFile.sourcemap with
        | some b => b
        | none => false
  format :=
    jsOrD (jsOr (getEnv env "PACKR_FORMAT")
      (jsOr options.format configFromFile.format)) "iife"
  eslint :=
    (getEnv env "PACKR_ESLINT" == some "true")
      || (match configFromFile.eslint with
          | some b => b
          | none => false)
      || false
  eslint_config :=
    jsOr (getEnv env "PACKR_ESLINT_CONFIG") configFromFile.eslint_config

/-! ### The `packr` pipeline: validation, sandboxing, normalization,
artifact, launch -/

/-- The `required` loop of `packr`: the first of the four required fields
that is falsy (absent or empty), if any, in source order. -/
def requiredCheck (uc : UserConfig) : Option String :=
  if !(jsTruthy uc.scss_input) then some "scss_input"
  else if !(jsTruthy uc.scss_output) then some "scss_output"
  else if !(jsTruthy uc.js_input) then some "js_input"
  else if !(jsTruthy uc.js_output) then some "js_output"
  else none

/-- `resolveSafe` applied to a possibly-undefined field (on `undefined`,
Node's `path.resolve` throws a `TypeError`; the pipeline only reaches this
after `requiredCheck` has passed). -/
def resolveSafeOpt (root baseDir : String) : Option String → Except String String
  | none => Except.error "TypeError: path argument is undefined"
  | some p => resolveSafe root p baseDir

/-- `userConfig.x_destination ? resolveSafe(userConfig.x_destination,
configDir) : undefined`. -/
def resolveDest (root baseDir : String) (d : Option String) :
    Except String (Option String) :=
  if jsTruthy d then
    match resolveSafe root (d.getD "") baseDir with
    | Except.error e => Except.error e
    | Except.ok r => Except.ok (some r)
  else Except.ok none

/-- The path-valued part of the `config` object `packr` builds from
`userConfig` (the non-path fields are spread through unchanged — including
`eslint_config`, which is carried over by the `...userConfig` spread). -/
structure ResolvedPaths where
  scss_input : String
  scss_output : String
  js_input : String
  js_output : String
  css_destination : Option String
  js_destination : Option String
  eslint_config : Option String
deriving DecidableEq

/-- The `config = { ...userConfig, scss_input: resolveSafe(...), ... }`
construction of `packr`: the four required paths and the two destination
directories go through `resolveSafe` with the config file's directory as
base; `eslint_config` is spread through without any check. -/
def resolveConfig (root configDir : String) (uc : UserConfig) :
    Except String ResolvedPaths :=
  match resolveSafeOpt root configDir uc.scss_input with
  | Except.error e => Except.error e
  | Except.ok si =>
  match resolveSafeOpt root configDir uc.scss_output with
  | Except.error e => Except.error e
  | Except.ok so =>
  match resolveSafeOpt root configDir uc.js_input with
  | Except.error e => Except.error e
  | Except.ok ji =>
  match resolveSafeOpt root configDir uc.js_output with
  | Except.error e => Except.error e
  | Except.ok jo =>
  match resolveDest root configDir uc.css_destination with
  | Except.error e => Except.error e
  | Except.ok cd =>
  match resolveDest root configDir uc.js_destination with
  | Except.error e => Except.error e
  | Except.ok jd =>
    Except.ok
      { scss_input := si, scss_output := so, js_input := ji, js_output := jo,
        css_destination := cd, js_destination := jd,
        eslint_config := uc.eslint_config }

/-- The output normalizer `joinOut(outFile, destDir, baseDir)` of `packr`:
resolve the output path, take its file name, and place it in the resolved
destination directory when one is given, else in the output path's own
directory. -/
def joinOut (cwd : String) (outFile : String) (destDir : Option String)
    (baseDir : String) : String :=
  let outAbs := resolveP cwd baseDir outFile
  let outBase := basenameP outAbs
  let outDir :=
    if jsTruthy destDir then resolveP cwd baseDir (destDir.getD "")
    else dirnameP outAbs
  joinP outDir outBase

/-- Loading the config file named in `options.config` (`JSON.parse` of the
file, with `configDir` set to the directory of its resolved path); without
`options.config` the empty object and the project root are used.  The read
itself is a parameter (`readConfigFile`) modelling the file system. -/
def configStep (root : String)
    (readConfigFile : String → Except String ConfigFile)
    (cfg : Option String) : Except String (ConfigFile × String) :=
  match cfg with
  | none => Except.ok ({}, root)
  | some cfgPath =>
    match readConfigFile cfgPath with
    | Except.error e => Except.error e
    | Except.ok c => Except.ok (c, dirnameP (resolveP root root cfgPath))

/-- The artifact written to `.packr-config.json` for the Rust worker: the
resolved input paths, the normalized output paths, and the non-path
settings.  (`eslint`/`eslint_config` are not part of it.) -/
structure Artifact where
  scss_input : String
  scss_output : String
  js_input : String
  js_output : String
  minify : Bool
  minify_js : Bool
  minify_css : Bool
  uglify : Uglify
  target : String
  verbose : Bool
  sourcemap : Bool
  format : String
deriving DecidableEq

/-- An observable side effect of `packr`: writing the artifact file or
spawning the worker process. -/
inductive Effect where
  | writeFile (path : String) (content : Artifact)
  | spawnProc (bin : String) (args : List String)
deriving DecidableEq

/-- The `packr(options)` pipeline up to (and including) the decision to
spawn the worker, as a pure function: the outcome, paired with the list of
side effects performed before returning, in order. -/
def packrRun (root : String) (env : Env) (options : Options)
    (readConfigFile : String → Except String ConfigFile)
    (binaryExists : Bool) (binaryPath : String) :
    Except String Unit × List Effect :=
  match configStep root readConfigFile options.config with
  | Except.error e => (Except.error e, [])
  | Except.ok fc =>
    let uc := userConfig env options fc.1
    match requiredCheck uc with
    | some key =>
      (Except.error ("Missing required option: \"" ++ key ++ "\""), [])
    | none =>
      match resolveConfig root fc.2 uc with
      | Except.error e => (Except.error e, [])
      | Except.ok rp =>
        let normScss := joinOut root rp.scss_output rp.css_destination fc.2
        let normJs := joinOut root rp.js_output rp.js_destination fc.2
        let artifact : Artifact :=
          { scss_input := rp.scss_input, scss_output := normScss,
            js_input := rp.js_input, js_output := normJs,
            minify := uc.minify, minify_js := uc.minify_js,
            minify_css := uc.minify_css, uglify := uc.uglify,
            target := uc.target, verbose := uc.verbose,
            sourcemap := uc.sourcemap, format := uc.format }
        let configPath := resolveP root root ".packr-config.json"
        if !binaryExists then
          (Except.error ("Binary not found at " ++ binaryPath),
            [Effect.writeFile configPath artifact])
        else
          let args :=
            configPath ::
              (if (match options.watch with | some b => b | none => false)
               then ["--watch"] else [])
          (Except.ok (),
            [Effect.writeFile configPath artifact,
             Effect.spawnProc binaryPath args])

/-- What the spawned worker process does, as observed by the `close` /
`error` handlers: it closes with an exit status (`none` models a
signal-killed process, whose status is `null`), or spawning fails with an
OS error. -/
inductive WorkerEvent where
  | close (code : Option Int)
  | procError (msg : String)
deriving DecidableEq

/-- How the promise returned by `packr` settles. -/
inductive LaunchResult where
  | success
  | exitFailure (code : Option Int)
  | spawnFailure (msg : String)
deriving DecidableEq

/-- The promise executor of `packr`: resolve on `close` with status `0`,
reject with the exit code on any other `close`, reject with the OS error on
`error`. -/
def launchOutcome : WorkerEvent → LaunchResult
  | WorkerEvent.close code =>
    if code == some 0 then LaunchResult.success
    else LaunchResult.exitFailure code
  | WorkerEvent.procError m => LaunchResult.spawnFailure m

/-! ### Helper lemmas -/

theorem dropShared_self (l : List String) : dropShared l l = ([], []) := by
  induction l with
  | nil => rfl
  | cons a as ih => simp [dropShared, ih]

theorem relativeP_self (cwd p : String) : relativeP cwd p p = "" := by
  simp [relativeP, dropShared_self, joinSegs, String.intercalate]

theorem isPathInside_refl (cwd p : String) : isPathInside cwd p p = true := by
  simp only [isPathInside, relativeP_self]
  decide

theorem resolveSafe_ok_inside {root p baseDir q : String}
    (h : resolveSafe root p baseDir = Except.ok q) :
    isPathInside root q root = true := by
  unfold resolveSafe at h
  by_cases hin : isPathInside root (resolveP root baseDir p) root = true
  · simp only [hin, Bool.not_true, Bool.false_eq_true, if_false] at h
    cases h
    exact hin
  · simp only [Bool.not_eq_true] at hin
    simp [hin] at h

theorem resolveSafe_ok_eq {root p baseDir q : String}
    (h : resolveSafe root p baseDir = Except.ok q) :
    q = resolveP root baseDir p := by
  unfold resolveSafe at h
  by_cases hin : isPathInside root (resolveP root baseDir p) root = true
  · simp only [hin, Bool.not_true, Bool.false_eq_true, if_false] at h
    cases h
    rfl
  · simp only [Bool.not_eq_true] at hin
    simp [hin] at h

theorem resolveSafeOpt_ok_inside {root baseDir : String} {op : Option String}
    {q : String} (h : resolveSafeOpt root baseDir op = Except.ok q) :
    isPathInside root q root = true := by
  cases op with
  | none => simp [resolveSafeOpt] at h
  | some p => exact resolveSafe_ok_inside h

theorem resolveDest_ok_inside {root baseDir : String} {op : Option String}
    {d : String} (h : resolveDest root baseDir op = Except.ok (some d)) :
    isPathInside root d root = true := by
  unfold resolveDest at h
  by_cases ht : jsTruthy op = true
  · rw [if_pos ht] at h
    cases hr : resolveSafe root (op.getD "") baseDir with
    | error e => rw [hr] at h; cases h
    | ok r =>
      rw [hr] at h
      cases h
      exact resolveSafe_ok_inside hr
  · simp only [Bool.not_eq_true] at ht
    rw [ht] at h
    simp at h

theorem find?_filter_of_imp {α : Type} (p q : α → Bool) (l : List α)
    (h : ∀ x, p x = true → q x = true) :
    (l.filter q).find? p = l.find? p := by
  induction l with
  | nil => rfl
  | cons a as ih =>
    by_cases hq : q a = true
    · by_cases hp : p a = true
      · simp [List.filter_cons, hq, List.find?, hp]
      · simp only [Bool.not_eq_true] at hp
        simp [List.filter_cons, hq, List.find?, hp, ih]
    · have hp : p a = false := by
        cases hpa : p a with
        | false => rfl
        | true => exact absurd (h a hpa) hq
      simp only [Bool.not_eq_true] at hq
      simp [List.filter_cons, hq, List.find?, hp, ih]

theorem getEnv_setEnv_self (env : Env) (k v : String) :
    getEnv (setEnv env k v) k = some v := by
  simp [getEnv, setEnv, List.find?]

theorem getEnv_setEnv_ne (env : Env) (k v k' : String) (h : k' ≠ k) :
    getEnv (setEnv env k v) k' = getEnv env k' := by
  have hk : (k == k') = false := by
    simp only [beq_eq_false_iff_ne, ne_eq]
    exact fun he => h he.symm
  unfold getEnv setEnv
  rw [List.find?]
  simp only [hk]
  rw [find?_filter_of_imp]
  intro x hx
  simp only [beq_iff_eq] at hx
  simp only [bne_iff_ne, ne_eq, hx]
  exact h

theorem getEnv_eraseEnv_self (env : Env) (k : String) :
    getEnv (eraseEnv env k) k = none := by
  unfold getEnv eraseEnv
  have : (env.filter (fun kv => kv.1 != k)).find? (fun kv => kv.1 == k)
      = none := by
    induction env with
    | nil => rfl
    | cons a as ih =>
      by_cases ha : (a.1 != k) = true
      · have hp : (a.1 == k) = false := by
          simp only [bne_iff_ne, ne_eq] at ha
          simp only [beq_eq_false_iff_ne, ne_eq]
          exact ha
        simp [List.filter_cons, ha, List.find?, hp, ih]
      · simp only [Bool.not_eq_true] at ha
        simp [List.filter_cons, ha, ih]
  rw [this]
  rfl

/-! ### Claim theorems -/

/-- C2: `resolveSafe` never returns a path outside the trusted root: any
value it returns passes `isPathInside`; whenever the relative path from the
root to the resolved candidate begins with an upward-traversal prefix or is
absolute (i.e. the candidate escapes), it fails with the path-escape error;
and a candidate resolving to the root itself (empty relative path) is always
accepted. -/
theorem resolveSafe_no_escape (root baseDir p : String) :
    (∀ q, resolveSafe root p baseDir = Except.ok q →
      isPathInside root q root = true) ∧
    ((strStarts (relativeP root root (resolveP root baseDir p)) ".." = true
        ∨ isAbsolute (relativeP root root (resolveP root baseDir p)) = true) →
      resolveSafe root p baseDir
        = Except.error ("Unsafe path detected: " ++ p)) ∧
    (resolveP root baseDir p = root →
      resolveSafe root p baseDir = Except.ok root) := by
  refine ⟨fun q h => resolveSafe_ok_inside h, ?_, ?_⟩
  · intro h
    have hfalse : isPathInside root (resolveP root baseDir p) root = false := by
      unfold isPathInside
      rcases h with h | h
      · simp [h]
      · simp [h]
    simp only [resolveSafe]
    rw [hfalse]
    simp
  · intro h
    simp only [resolveSafe]
    rw [h, isPathInside_refl]
    simp

/-- Witness for C2: a traversal candidate is rejected with the path-escape
error, and a candidate resolving to the root itself is accepted. -/
theorem resolveSafe_no_escape_witness :
    resolveSafe "/root" "../etc/passwd" "/root"
        = Except.error ("Unsafe path detected: " ++ "../etc/passwd") ∧
    resolveSafe "/root" "." "/root" = Except.ok "/root" := by
  constructor
  · exact (resolveSafe_no_escape "/root" "/root" "../etc/passwd").2.1
      (Or.inl (by decide))
  · exact (resolveSafe_no_escape "/root" "/root" ".").2.2 (by decide)

/-- C9 as stated is false: `/root/./a` is absolute and lies inside the root
`/root`, yet `resolveSafe` returns the normalized `/root/a`, not the path
itself unchanged. -/
theorem claimC9_counterexample :
    isAbsolute "/root/./a" = true ∧
    isPathInside "/root" "/root/./a" "/root" = true ∧
    resolveSafe "/root" "/root/./a" "/anywhere" = Except.ok "/root/a" ∧
    ("/root/a" : String) ≠ "/root/./a" := by
  refine ⟨by decide, by decide, by rfl, by decide⟩

/-- C9 (amended): `resolveSafe` is idempotent on normalized absolute
in-root paths — for every path that is absolute, in normal form (equal to
its own segment normalization), and inside the trusted root, resolving it
against any base directory returns the path itself unchanged. -/
theorem resolveSafe_idempotent (root baseDir p : String)
    (habs : isAbsolute p = true)
    (hnorm : "/" ++ joinSegs (normSegs true (segsOf p)) = p)
    (hin : isPathInside root p root = true) :
    resolveSafe root p baseDir = Except.ok p := by
  have hres : resolveP root baseDir p = p := by
    unfold resolveP
    rw [habs]
    simpa using hnorm
  simp only [resolveSafe]
  rw [hres, hin]
  simp

/-- Witness for C9 (amended): the normalized absolute in-root path
`/root/a` resolves to itself. -/
theorem resolveSafe_idempotent_witness :
    resolveSafe "/root" "/root/a" "/elsewhere" = Except.ok "/root/a" :=
  resolveSafe_idempotent "/root" "/elsewhere" "/root/a" (by decide) (by decide)
    (by decide)

/-- C7: with a truthy destination override, `joinOut` places the file name
extracted from the resolved output path inside the resolved override
directory; in particular `scss_output="dist/app.css"` with
`css_destination="public/css"` normalizes to `/root/public/css/app.css`,
not `/root/dist/public/css/app.css`. -/
theorem joinOut_destination (cwd baseDir outFile d : String) (hd : d ≠ "") :
    joinOut cwd outFile (some d) baseDir
        = joinP (resolveP cwd baseDir d)
            (basenameP (resolveP cwd baseDir outFile)) ∧
    joinOut "/root" "dist/app.css" (some "public/css") "/root"
        = "/root/public/css/app.css" ∧
    joinOut "/root" "dist/app.css" (some "public/css") "/root"
        ≠ "/root/dist/public/css/app.css" := by
  have ht : jsTruthy (some d) = true := by simp [jsTruthy, hd]
  refine ⟨?_, by rfl, by decide⟩
  simp [joinOut, ht]

/-- Witness for C7 at the example of the claim. -/
theorem joinOut_destination_witness :
    joinOut "/root" "dist/app.css" (some "public/css") "/root"
        = "/root/public/css/app.css" :=
  (joinOut_destination "/c" "/b" "f.css" "x" (by decide)).2.1

/-- C6: the launch outcome resolves successfully iff the worker closes with
status zero; every other close status rejects with that exit code, and a
spawn error rejects with the underlying OS error. -/
theorem launchOutcome_spec (ev : WorkerEvent) :
    (launchOutcome ev = LaunchResult.success
        ↔ ev = WorkerEvent.close (some 0)) ∧
    (∀ c, c ≠ some 0 →
      launchOutcome (WorkerEvent.close c) = LaunchResult.exitFailure c) ∧
    (∀ m, launchOutcome (WorkerEvent.procError m)
        = LaunchResult.spawnFailure m) := by
  refine ⟨?_, ?_, fun m => rfl⟩
  · cases ev with
    | close c =>
      by_cases h : c = some 0
      · subst h
        simp [launchOutcome]
      · simp [launchOutcome, h]
    | procError m => simp [launchOutcome]
  · intro c h
    simp [launchOutcome, h]

/-- Witness for C6: a worker exiting with status 2 resolves the outcome as
a failure carrying code 2. -/
theorem launchOutcome_spec_witness :
    launchOutcome (WorkerEvent.close (some 2))
        = LaunchResult.exitFailure (some 2) :=
  (launchOutcome_spec (WorkerEvent.close (some 2))).2.1 (some 2) (by decide)

/-- C3: when any of the four required fields is missing after the merge,
`packr` fails with the validation error and performs no side effect at all —
in particular no artifact write and no process spawn. -/
theorem packr_missing_required_aborts (root : String) (env : Env)
    (options : Options) (readConfigFile : String → Except String ConfigFile)
    (binaryExists : Bool) (binaryPath : String) (f : ConfigFile) (dir : String)
    (key : String)
    (hcfg : configStep root readConfigFile options.config = Except.ok (f, dir))
    (hmiss : requiredCheck (userConfig env options f) = some key) :
    packrRun root env options readConfigFile binaryExists binaryPath
      = (Except.error ("Missing required option: \"" ++ key ++ "\""), []) := by
  unfold packrRun
  rw [hcfg]
  simp only [hmiss]

/-- Witness for C3: with no options, no config file and an empty
environment, `scss_input` is missing, the invocation fails, and the effect
list is empty. -/
theorem packr_missing_required_aborts_witness :
    packrRun "/r" [] {} (fun _ => Except.error "no file") true "/bin/packr"
      = (Except.error ("Missing required option: \"" ++ "scss_input" ++ "\""),
          []) :=
  packr_missing_required_aborts "/r" [] {} (fun _ => Except.error "no file")
    true "/bin/packr" {} "/r" "scss_input" (by rfl) (by rfl)

/-- C4 as stated is false: `eslint_config` is a path-valued field of the
resolved configuration, but the `config` construction never passes it
through `resolveSafe` — an upward-escaping `eslint_config` value flows
through unchanged while the six other path fields are sandboxed. -/
theorem claimC4_counterexample :
    resolveConfig "/root" "/root"
        (userConfig [("PACKR_ESLINT_CONFIG", "../../outside.json")]
          ({ scssInput := some "a.scss", scssOutput := some "out.css",
             jsInput := some "a.js", jsOutput := some "out.js" } : Options) {})
      = Except.ok
          { scss_input := "/root/a.scss", scss_output := "/root/out.css",
            js_input := "/root/a.js", js_output := "/root/out.js",
            css_destination := none, js_destination := none,
            eslint_config := some "../../outside.json" } ∧
    isPathInside "/root" (resolveP "/root" "/root" "../../outside.json")
        "/root" = false :=
  ⟨by rfl, by rfl⟩

/-- C4 (amended): every path-valued field except `eslint_config` —
`scss_input`, `scss_output`, `js_input`, `js_output` and, when present,
`css_destination` and `js_destination` — is passed through the sandbox
check against the config directory, so a successful `config` construction
yields only in-root paths for them; `eslint_config` is spread through
unchanged and unchecked. -/
theorem resolveConfig_sandboxes (root configDir : String) (uc : UserConfig)
    (rp : ResolvedPaths)
    (h : resolveConfig root configDir uc = Except.ok rp) :
    isPathInside root rp.scss_input root = true ∧
    isPathInside root rp.scss_output root = true ∧
    isPathInside root rp.js_input root = true ∧
    isPathInside root rp.js_output root = true ∧
    (∀ d, rp.css_destination = some d → isPathInside root d root = true) ∧
    (∀ d, rp.js_destination = some d → isPathInside root d root = true) ∧
    rp.eslint_config = uc.eslint_config := by
  unfold resolveConfig at h
  cases h1 : resolveSafeOpt root configDir uc.scss_input with
  | error e => rw [h1] at h; cases h
  | ok si =>
  rw [h1] at h
  cases h2 : resolveSafeOpt root configDir uc.scss_output with
  | error e => rw [h2] at h; cases h
  | ok so =>
  rw [h2] at h
  cases h3 : resolveSafeOpt root configDir uc.js_input with
  | error e => rw [h3] at h; cases h
  | ok ji =>
  rw [h3] at h
  cases h4 : resolveSafeOpt root configDir uc.js_output with
  | error e => rw [h4] at h; cases h
  | ok jo =>
  rw [h4] at h
  cases h5 : resolveDest root configDir uc.css_destination with
  | error e => rw [h5] at h; cases h
  | ok cd =>
  rw [h5] at h
  cases h6 : resolveDest root configDir uc.js_destination with
  | error e => rw [h6] at h; cases h
  | ok jd =>
  rw [h6] at h
  cases h
  refine ⟨resolveSafeOpt_ok_inside h1, resolveSafeOpt_ok_inside h2,
    resolveSafeOpt_ok_inside h3, resolveSafeOpt_ok_inside h4, ?_, ?_, rfl⟩
  · intro d hd
    have hd2 : cd = some d := hd
    exact resolveDest_ok_inside (hd2 ▸ h5)
  · intro d hd
    have hd2 : jd = some d := hd
    exact resolveDest_ok_inside (hd2 ▸ h6)

/-- C5: in development mode with a local environment file present, loading
`.env-local` overrides every previously set variable except the sourcemap
setting: when `PACKR_SOURCEMAP` was already set before step 3, its value is
saved and restored around the local load (so the local file's sourcemap
value never takes effect), while every other key ends up exactly as the
overriding local load left it; when it was not yet set, the local load's
result stands unmodified. -/
theorem loadEnvFiles_dev_local_sourcemap (fs : FS) (env0 env1 env2 env3 : Env)
    (h1 : loadEnvFromFile fs ".env" false env0 = Except.ok env1)
    (hdev : nodeEnvOf env1 = "development")
    (h2 : loadEnvFromFile fs ".env-development" true env1 = Except.ok env2)
    (hloc : (lookupFile fs ".env-local").isSome = true)
    (h3 : loadEnvFromFile fs ".env-local" true env2 = Except.ok env3) :
    ∃ envF, loadEnvFiles fs env0 = Except.ok envF ∧
      (∀ v, getEnv env2 "PACKR_SOURCEMAP" = some v →
        getEnv envF "PACKR_SOURCEMAP" = some v) ∧
      (∀ k, k ≠ "PACKR_SOURCEMAP" → getEnv envF k = getEnv env3 k) ∧
      (getEnv env2 "PACKR_SOURCEMAP" = none → envF = env3) := by
  cases hsm : getEnv env2 "PACKR_SOURCEMAP" with
  | some v =>
    have hstep : loadEnvFilesCore fs env0
        = Except.ok ("development", setEnv env3 "PACKR_SOURCEMAP" v) := by
      unfold loadEnvFilesCore
      rw [h1]
      simp only [hdev,
        show (".env-" ++ "development" : String) = ".env-development" from rfl,
        h2, hloc, beq_self_eq_true, Bool.true_and, if_true, h3, hsm]
    refine ⟨setEnv env3 "PACKR_SOURCEMAP" v, ?_, ?_, ?_, ?_⟩
    · unfold loadEnvFiles
      rw [hstep]
      simp [prodChecks,
        show (("development" : String) == "production") = false from by decide]
    · intro v2 hv2
      cases hv2
      exact getEnv_setEnv_self env3 "PACKR_SOURCEMAP" v
    · intro k hk
      exact getEnv_setEnv_ne env3 "PACKR_SOURCEMAP" v k hk
    · intro hnone
      cases hnone
  | none =>
    have hstep : loadEnvFilesCore fs env0
        = Except.ok ("development", env3) := by
      unfold loadEnvFilesCore
      rw [h1]
      simp only [hdev,
        show (".env-" ++ "development" : String) = ".env-development" from rfl,
        h2, hloc, beq_self_eq_true, Bool.true_and, if_true, h3, hsm]
    refine ⟨env3, ?_, ?_, fun k _ => rfl, fun _ => rfl⟩
    · unfold loadEnvFiles
      rw [hstep]
      simp [prodChecks,
        show (("development" : String) == "production") = false from by decide]
    · intro v2 hv2
      cases hv2

/-- Witness for C5: with `.env-local` setting both `PACKR_SOURCEMAP` and
`FOO` while `PACKR_SOURCEMAP` was already set, the loaded environment keeps
the earlier sourcemap value and takes the local file's `FOO`. -/
theorem loadEnvFiles_dev_local_sourcemap_witness :
    ∃ envF, loadEnvFiles [(".env-local", ⟨0o644,
          ["PACKR_SOURCEMAP=local", "FOO=bar"]⟩)]
        [("PACKR_SOURCEMAP", "keep")] = Except.ok envF ∧
      getEnv envF "PACKR_SOURCEMAP" = some "keep" ∧
      getEnv envF "FOO" = some "bar" := by
  obtain ⟨envF, hF, hsm, hk, _⟩ := loadEnvFiles_dev_local_sourcemap
    [(".env-local", ⟨0o644, ["PACKR_SOURCEMAP=local", "FOO=bar"]⟩)]
    [("PACKR_SOURCEMAP", "keep")] [("PACKR_SOURCEMAP", "keep")]
    [("PACKR_SOURCEMAP", "keep")]
    [("FOO", "bar"), ("PACKR_SOURCEMAP", "local")]
    (by rfl) (by rfl) (by rfl) (by rfl) (by rfl)
  refine ⟨envF, hF, hsm "keep" (by rfl), ?_⟩
  rw [hk "FOO" (by decide)]
  rfl

/-- C8: environment files load in the fixed order base-then-specific with
the documented override policy, so with `.env` setting `FOO=1`, mode-0600
files, and `.env-production` setting `FOO=2` under runtime mode
`production`, the loading phase succeeds in production mode and the final
value of `FOO` is `2`. -/
theorem loadEnvFilesCore_order (fs : FS) (env0 : Env) (fbase fprod : EnvFile)
    (hb : lookupFile fs ".env" = some fbase)
    (hbl : fbase.lines = ["FOO=1"])
    (hbm : fbase.mode &&& 0o777 = 0o600)
    (hp : lookupFile fs ".env-production" = some fprod)
    (hpl : fprod.lines = ["FOO=2"])
    (hpm : fprod.mode &&& 0o777 = 0o600)
    (hne : getEnv env0 "NODE_ENV" = some "production") :
    ∃ env2, loadEnvFilesCore fs env0 = Except.ok ("production", env2) ∧
      getEnv env2 "FOO" = some "2" := by
  have hload1 : loadEnvFromFile fs ".env" false env0
      = Except.ok (applyLine false env0 "FOO=1") := by
    unfold loadEnvFromFile
    rw [hb]
    simp only [hbl, hbm, bne_self_eq_false, Bool.false_and, Bool.false_eq_true,
      if_false, List.foldl_cons, List.foldl_nil]
  have happly : applyLine false env0 "FOO=1"
      = if envHas env0 "FOO" = true then env0 else setEnv env0 "FOO" "1" := by
    unfold applyLine
    rw [show parseLine "FOO=1" = some ("FOO", "1") from rfl]
    by_cases hh : envHas env0 "FOO" = true
    · simp [hh]
    · simp only [Bool.not_eq_true] at hh
      simp [hh, show (trimStr "FOO" : String) = "FOO" from rfl]
  have hne1 : getEnv (applyLine false env0 "FOO=1") "NODE_ENV"
      = some "production" := by
    rw [happly]
    by_cases hh : envHas env0 "FOO" = true
    · rw [if_pos hh]
      exact hne
    · rw [if_neg hh]
      rw [getEnv_setEnv_ne env0 "FOO" "1" "NODE_ENV" (by decide)]
      exact hne
  have hnode : nodeEnvOf (applyLine false env0 "FOO=1") = "production" := by
    unfold nodeEnvOf
    rw [hne1]
    rfl
  have hload2 : loadEnvFromFile fs ".env-production" true
      (applyLine false env0 "FOO=1")
      = Except.ok (setEnv (applyLine false env0 "FOO=1") "FOO" "2") := by
    unfold loadEnvFromFile
    rw [hp]
    simp only [hpl, hpm, bne_self_eq_false, Bool.false_and, Bool.false_eq_true,
      if_false, List.foldl_cons, List.foldl_nil]
    rw [show applyLine true (applyLine false env0 "FOO=1") "FOO=2"
        = setEnv (applyLine false env0 "FOO=1") (trimStr "FOO") "2" from by
      unfold applyLine
      rw [show parseLine "FOO=2" = some ("FOO", "2") from rfl]
      simp]
    rw [show (trimStr "FOO" : String) = "FOO" from rfl]
  refine ⟨setEnv (applyLine false env0 "FOO=1") "FOO" "2", ?_,
    getEnv_setEnv_self _ "FOO" "2"⟩
  unfold loadEnvFilesCore
  rw [hload1]
  simp only [hnode,
    show (".env-" ++ "production" : String) = ".env-production" from rfl,
    hload2,
    show (("production" : String) == "development") = false from by decide,
    Bool.false_and, Bool.false_eq_true, if_false]

/-- Witness for C8 at a concrete file system: `.env` sets `FOO=1`,
`.env-production` sets `FOO=2`, `NODE_ENV=production`, and the loaded value
of `FOO` is `2`. -/
theorem loadEnvFilesCore_order_witness :
    ∃ env2, loadEnvFilesCore
        [(".env", ⟨0o600, ["FOO=1"]⟩), (".env-production", ⟨0o600, ["FOO=2"]⟩)]
        [("NODE_ENV", "production")] = Except.ok ("production", env2) ∧
      getEnv env2 "FOO" = some "2" :=
  loadEnvFilesCore_order
    [(".env", ⟨0o600, ["FOO=1"]⟩), (".env-production", ⟨0o600, ["FOO=2"]⟩)]
    [("NODE_ENV", "production")] ⟨0o600, ["FOO=1"]⟩ ⟨0o600, ["FOO=2"]⟩
    (by rfl) (by rfl) (by rfl) (by rfl) (by rfl) (by rfl) (by rfl)

/-- C1 as stated is false: `uglify.keep_fnames` is a boolean field, its
environment variable is exactly `"false"`, yet the merged field is `true`
because the options value wins — the `=== 'false'` leg of the tri-state is
missing for this field in the source. -/
theorem claimC1_counterexample :
    getEnv [("PACKR_UGLIFY_KEEP_FNAMES", "false")] "PACKR_UGLIFY_KEEP_FNAMES"
        = some "false" ∧
    (userConfig [("PACKR_UGLIFY_KEEP_FNAMES", "false")]
        ({ uglify := some { keepFnames := some true } } : Options)
        {}).uglify.keep_fnames = true :=
  ⟨rfl, rfl⟩

/-- C1 (amended): the merge applies env > options > file > default with the
following environment-variable semantics.  Every string-valued field takes
a nonempty environment value over options and file.  The boolean fields
`minify`, `minify_js`, `minify_css`, `uglify.mangle` and `sourcemap` are
tri-state: env `"true"` forces true, env `"false"` forces false, anything
else falls through to options, then file, then the default.  For
`uglify.keep_fnames`, `uglify.keep_classnames`, `verbose` and `eslint`,
env `"true"` forces true but any other env value (including `"false"`)
falls through — to options then file for the `keep_*` fields, to the truthy
options/file values for `verbose`, and to the file value only for `eslint`
(options are never consulted for it). -/
theorem userConfig_precedence (env : Env) (o : Options) (f : ConfigFile) :
    (∀ v, v ≠ "" → getEnv env "PACKR_SCSS_INPUT" = some v →
      (userConfig env o f).scss_input = some v) ∧
    (∀ v, v ≠ "" → getEnv env "PACKR_SCSS_OUTPUT" = some v →
      (userConfig env o f).scss_output = some v) ∧
    (∀ v, v ≠ "" → getEnv env "PACKR_JS_INPUT" = some v →
      (userConfig env o f).js_input = some v) ∧
    (∀ v, v ≠ "" → getEnv env "PACKR_JS_OUTPUT" = some v →
      (userConfig env o f).js_output = some v) ∧
    (∀ v, v ≠ "" → getEnv env "PACKR_CSS_DESTINATION" = some v →
      (userConfig env o f).css_destination = some v) ∧
    (∀ v, v ≠ "" → getEnv env "PACKR_JS_DESTINATION" = some v →
      (userConfig env o f).js_destination = some v) ∧
    (∀ v, v ≠ "" → getEnv env "PACKR_TARGET" = some v →
      (userConfig env o f).target = v) ∧
    (∀ v, v ≠ "" → getEnv env "PACKR_FORMAT" = some v →
      (userConfig env o f).format = v) ∧
    (∀ v, v ≠ "" → getEnv env "PACKR_ESLINT_CONFIG" = some v →
      (userConfig env o f).eslint_config = some v) ∧
    (∀ v, v ≠ "" → getEnv env "PACKR_UGLIFY_RESERVED" = some v →
      (userConfig env o f).uglify.reserved
        = (splitStr ',' v).filter (fun s => s ≠ "")) ∧
    (getEnv env "PACKR_MINIFY" = some "true" →
      (userConfig env o f).minify = true) ∧
    (getEnv env "PACKR_MINIFY" = some "false" →
      (userConfig env o f).minify = false) ∧
    (getEnv env "PACKR_MINIFY" ≠ some "true" →
      getEnv env "PACKR_MINIFY" ≠ some "false" →
      (userConfig env o f).minify = o.minify.getD (f.minify.getD true)) ∧
    (getEnv env "PACKR_MINIFY_JS" = some "true" →
      (userConfig env o f).minify_js = true) ∧
    (getEnv env "PACKR_MINIFY_JS" = some "false" →
      (userConfig env o f).minify_js = false) ∧
    (getEnv env "PACKR_MINIFY_JS" ≠ some "true" →
      getEnv env "PACKR_MINIFY_JS" ≠ some "false" →
      (userConfig env o f).minify_js
        = o.minifyJs.getD (f.minify_js.getD true)) ∧
    (getEnv env "PACKR_MINIFY_CSS" = some "true" →
      (userConfig env o f).minify_css = true) ∧
    (getEnv env "PACKR_MINIFY_CSS" = some "false" →
      (userConfig env o f).minify_css = false) ∧
    (getEnv env "PACKR_MINIFY_CSS" ≠ some "true" →
      getEnv env "PACKR_MINIFY_CSS" ≠ some "false" →
      (userConfig env o f).minify_css
        = o.minifyCss.getD (f.minify_css.getD true)) ∧
    (getEnv env "PACKR_UGLIFY_MANGLE" = some "true" →
      (userConfig env o f).uglify.mangle = true) ∧
    (getEnv env "PACKR_UGLIFY_MANGLE" = some "false" →
      (userConfig env o f).uglify.mangle = false) ∧
    (getEnv env "PACKR_UGLIFY_MANGLE" ≠ some "true" →
      getEnv env "PACKR_UGLIFY_MANGLE" ≠ some "false" →
      (userConfig env o f).uglify.mangle
        = (o.uglify.bind (fun u => u.mangle)).getD
            ((f.uglify.bind (fun u => u.mangle)).getD true)) ∧
    (getEnv env "PACKR_SOURCEMAP" = some "true" →
      (userConfig env o f).sourcemap = true) ∧
    (getEnv env "PACKR_SOURCEMAP" = some "false" →
      (userConfig env o f).sourcemap = false) ∧
    (getEnv env "PACKR_SOURCEMAP" ≠ some "true" →
      getEnv env "PACKR_SOURCEMAP" ≠ some "false" →
      (userConfig env o f).sourcemap
        = o.sourcemap.getD (f.sourcemap.getD false)) ∧
    (getEnv env "PACKR_UGLIFY_KEEP_FNAMES" = some "true" →
      (userConfig env o f).uglify.keep_fnames = true) ∧
    (getEnv env "PACKR_UGLIFY_KEEP_FNAMES" ≠ some "true" →
      (userConfig env o f).uglify.keep_fnames
        = (o.uglify.bind (fun u => u.keepFnames)).getD
            ((f.uglify.bind (fun u => u.keep_fnames)).getD false)) ∧
    (getEnv env "PACKR_UGLIFY_KEEP_CLASSNAMES" = some "true" →
      (userConfig env o f).uglify.keep_classnames = true) ∧
    (getEnv env "PACKR_UGLIFY_KEEP_CLASSNAMES" ≠ some "true" →
      (userConfig env o f).uglify.keep_classnames
        = (o.uglify.bind (fun u => u.keepClassnames)).getD
            ((f.uglify.bind (fun u => u.keep_classnames)).getD false)) ∧
    (getEnv env "PACKR_VERBOSE" = some "true" →
      (userConfig env o f).verbose = true) ∧
    (getEnv env "PACKR_VERBOSE" ≠ some "true" →
      (userConfig env o f).verbose
        = (o.verbose.getD false || f.verbose.getD false)) ∧
    (getEnv env "PACKR_ESLINT" = some "true" →
      (userConfig env o f).eslint = true) ∧
    (getEnv env "PACKR_ESLINT" ≠ some "true" →
      (userConfig env o f).eslint = f.eslint.getD false) := by
  refine ⟨?_, ?_, ?_, ?_, ?_, ?_, ?_, ?_, ?_, ?_, ?_, ?_, ?_, ?_, ?_, ?_, ?_,
    ?_, ?_, ?_, ?_, ?_, ?_, ?_, ?_, ?_, ?_, ?_, ?_, ?_, ?_, ?_, ?_⟩
  · intro v hv h
    simp [userConfig, jsOr, jsTruthy, h, hv]
  · intro v hv h
    simp [userConfig, jsOr, jsTruthy, h, hv]
  · intro v hv h
    simp [userConfig, jsOr, jsTruthy, h, hv]
  · intro v hv h
    simp [userConfig, jsOr, jsTruthy, h, hv]
  · intro v hv h
    simp [userConfig, jsOr, jsTruthy, h, hv]
  · intro v hv h
    simp [userConfig, jsOr, jsTruthy, h, hv]
  · intro v hv h
    simp [userConfig, jsOr, jsOrD, jsTruthy, h, hv]
  · intro v hv h
    simp [userConfig, jsOr, jsOrD, jsTruthy, h, hv]
  · intro v hv h
    simp [userConfig, jsOr, jsTruthy, h, hv]
  · intro v hv h
    simp [userConfig, jsOr, jsOrD, jsTruthy, h, hv]
  · intro h
    simp [userConfig, h]
  · intro h
    simp [userConfig, h,
      show ((some "false" : Option String) == some "true") = false from by
        decide]
  · intro h1 h2
    have e1 : (getEnv env "PACKR_MINIFY" == some "true") = false := by
      simp [h1]
    have e2 : (getEnv env "PACKR_MINIFY" != some "false") = true := by
      simp [h2]
    simp only [userConfig, e1, e2, Bool.false_or, Bool.true_and]
    cases o.minify <;> cases f.minify <;> simp
  · intro h
    simp [userConfig, h]
  · intro h
    simp [userConfig, h,
      show ((some "false" : Option String) == some "true") = false from by
        decide]
  · intro h1 h2
    have e1 : (getEnv env "PACKR_MINIFY_JS" == some "true") = false := by
      simp [h1]
    have e2 : (getEnv env "PACKR_MINIFY_JS" != some "false") = true := by
      simp [h2]
    simp only [userConfig, e1, e2, Bool.false_or, Bool.true_and]
    cases o.minifyJs <;> cases f.minify_js <;> simp
  · intro h
    simp [userConfig, h]
  · intro h
    simp [userConfig, h,
      show ((some "false" : Option String) == some "true") = false from by
        decide]
  · intro h1 h2
    have e1 : (getEnv env "PACKR_MINIFY_CSS" == some "true") = false := by
      simp [h1]
    have e2 : (getEnv env "PACKR_MINIFY_CSS" != some "false") = true := by
      simp [h2]
    simp only [userConfig, e1, e2, Bool.false_or, Bool.true_and]
    cases o.minifyCss <;> cases f.minify_css <;> simp
  · intro h
    simp [userConfig, h]
  · intro h
    simp [userConfig, h,
      show ((some "false" : Option String) == some "true") = false from by
        decide]
  · intro h1 h2
    have e1 : (getEnv env "PACKR_UGLIFY_MANGLE" == some "true") = false := by
      simp [h1]
    have e2 : (getEnv env "PACKR_UGLIFY_MANGLE" != some "false") = true := by
      simp [h2]
    simp only [userConfig, e1, e2, Bool.false_or, Bool.true_and]
    cases o.uglify.bind (fun u => u.mangle)
      <;> cases f.uglify.bind (fun u => u.mangle) <;> simp
  · intro h
    simp [userConfig, h]
  · intro h
    simp [userConfig, h,
      show ((some "false" : Option String) == some "true") = false from by
        decide]
  · intro h1 h2
    have e1 : (getEnv env "PACKR_SOURCEMAP" == some "true") = false := by
      simp [h1]
    have e2 : (getEnv env "PACKR_SOURCEMAP" == some "false") = false := by
      simp [h2]
    simp only [userConfig, e1, e2, Bool.false_eq_true, if_false]
    cases o.sourcemap <;> cases f.sourcemap <;> simp
  · intro h
    simp [userConfig, h]
  · intro h
    have e1 : (getEnv env "PACKR_UGLIFY_KEEP_FNAMES" == some "true")
        = false := by simp [h]
    simp only [userConfig, e1, Bool.false_or]
    cases o.uglify.bind (fun u => u.keepFnames)
      <;> cases f.uglify.bind (fun u => u.keep_fnames) <;> simp
  · intro h
    simp [userConfig, h]
  · intro h
    have e1 : (getEnv env "PACKR_UGLIFY_KEEP_CLASSNAMES" == some "true")
        = false := by simp [h]
    simp only [userConfig, e1, Bool.false_or]
    cases o.uglify.bind (fun u => u.keepClassnames)
      <;> cases f.uglify.bind (fun u => u.keep_classnames) <;> simp
  · intro h
    simp [userConfig, h]
  · intro h
    have e1 : (getEnv env "PACKR_VERBOSE" == some "true") = false := by
      simp [h]
    simp only [userConfig, e1, Bool.false_or]
    cases o.verbose <;> cases f.verbose <;> simp
  · intro h
    simp [userConfig, h]
  · intro h
    have e1 : (getEnv env "PACKR_ESLINT" == some "true") = false := by
      simp [h]
    simp only [userConfig, e1, Bool.false_or]
    cases f.eslint <;> simp

/-- Witness for C1 (amended), exercising each kind of precedence rule at
concrete inputs: nonempty string env values win; `minify` obeys all three
tri-state legs; `sourcemap` env `"false"` beats a true options value;
`keep_fnames` env `"true"` wins but env `"false"` loses to options; an
`eslint` env value other than `"true"` leaves the file value in force. -/
theorem userConfig_precedence_witness :
    (userConfig [("PACKR_SCSS_INPUT", "env.scss")] {} {}).scss_input
        = some "env.scss" ∧
    (userConfig [("PACKR_TARGET", "es2018")] {} {}).target = "es2018" ∧
    (userConfig [("PACKR_UGLIFY_RESERVED", "a,b")] {} {}).uglify.reserved
        = ["a", "b"] ∧
    (userConfig [("PACKR_MINIFY", "true")]
        ({ minify := some false } : Options) {}).minify = true ∧
    (userConfig [("PACKR_MINIFY", "false")]
        ({ minify := some true } : Options) {}).minify = false ∧
    (userConfig [] ({ minify := some false } : Options) {}).minify = false ∧
    (userConfig [("PACKR_SOURCEMAP", "false")]
        ({ sourcemap := some true } : Options) {}).sourcemap = false ∧
    (userConfig [("PACKR_UGLIFY_KEEP_FNAMES", "true")] {} {}).uglify.keep_fnames
        = true ∧
    (userConfig [("PACKR_UGLIFY_KEEP_FNAMES", "false")]
        ({ uglify := some { keepFnames := some true } } : Options)
        {}).uglify.keep_fnames = true ∧
    (userConfig [("PACKR_ESLINT", "false")] {}
        ({ eslint := some true } : ConfigFile)).eslint = true := by
  refine ⟨?_, ?_, ?_, ?_, ?_, ?_, ?_, ?_, ?_, ?_⟩
  · exact (userConfig_precedence [("PACKR_SCSS_INPUT", "env.scss")] {} {}).1
      "env.scss" (by decide) rfl
  · exact (userConfig_precedence [("PACKR_TARGET", "es2018")] {}
      {}).2.2.2.2.2.2.1 "es2018" (by decide) rfl
  · exact ((userConfig_precedence [("PACKR_UGLIFY_RESERVED", "a,b")] {}
      {}).2.2.2.2.2.2.2.2.2.1 "a,b" (by decide) rfl).trans rfl
  · exact (userConfig_precedence [("PACKR_MINIFY", "true")]
      ({ minify := some false } : Options) {}).2.2.2.2.2.2.2.2.2.2.1 rfl
  · exact (userConfig_precedence [("PACKR_MINIFY", "false")]
      ({ minify := some true } : Options) {}).2.2.2.2.2.2.2.2.2.2.2.1 rfl
  · exact ((userConfig_precedence [] ({ minify := some false } : Options)
      {}).2.2.2.2.2.2.2.2.2.2.2.2.1 (by decide) (by decide)).trans rfl
  · exact (userConfig_precedence [("PACKR_SOURCEMAP", "false")]
      ({ sourcemap := some true } : Options)
      {}).2.2.2.2.2.2.2.2.2.2.2.2.2.2.2.2.2.2.2.2.2.2.2.1 rfl
  · exact (userConfig_precedence [("PACKR_UGLIFY_KEEP_FNAMES", "true")] {}
      {}).2.2.2.2.2.2.2.2.2.2.2.2.2.2.2.2.2.2.2.2.2.2.2.2.2.1 rfl
  · exact ((userConfig_precedence [("PACKR_UGLIFY_KEEP_FNAMES", "false")]
      ({ uglify := some { keepFnames := some true } } : Options)
      {}).2.2.2.2.2.2.2.2.2.2.2.2.2.2.2.2.2.2.2.2.2.2.2.2.2.2.1
      (by decide)).trans rfl
  · exact ((userConfig_precedence [("PACKR_ESLINT", "false")] {}
      ({ eslint := some true } : ConfigFile)).2.2.2.2.2.2.2.2.2.2.2.2.2.2.2.2.2.2.2.2.2.2.2.2.2.2.2.2.2.2.2.2
      (by decide)).trans rfl

/-- C10: for every string-valued configuration field, an environment
variable that is set but empty does not take precedence — the merged field
is exactly what it would be with the variable unset, falling through to
options, then file, then default. -/
theorem userConfig_empty_env (env : Env) (o : Options) (f : ConfigFile) :
    (getEnv env "PACKR_SCSS_INPUT" = some "" →
      (userConfig env o f).scss_input
        = (userConfig (eraseEnv env "PACKR_SCSS_INPUT") o f).scss_input) ∧
    (getEnv env "PACKR_SCSS_OUTPUT" = some "" →
      (userConfig env o f).scss_output
        = (userConfig (eraseEnv env "PACKR_SCSS_OUTPUT") o f).scss_output) ∧
    (getEnv env "PACKR_JS_INPUT" = some "" →
      (userConfig env o f).js_input
        = (userConfig (eraseEnv env "PACKR_JS_INPUT") o f).js_input) ∧
    (getEnv env "PACKR_JS_OUTPUT" = some "" →
      (userConfig env o f).js_output
        = (userConfig (eraseEnv env "PACKR_JS_OUTPUT") o f).js_output) ∧
    (getEnv env "PACKR_CSS_DESTINATION" = some "" →
      (userConfig env o f).css_destination
        = (userConfig (eraseEnv env "PACKR_CSS_DESTINATION") o
            f).css_destination) ∧
    (getEnv env "PACKR_JS_DESTINATION" = some "" →
      (userConfig env o f).js_destination
        = (userConfig (eraseEnv env "PACKR_JS_DESTINATION") o
            f).js_destination) ∧
    (getEnv env "PACKR_TARGET" = some "" →
      (userConfig env o f).target
        = (userConfig (eraseEnv env "PACKR_TARGET") o f).target) ∧
    (getEnv env "PACKR_FORMAT" = some "" →
      (userConfig env o f).format
        = (userConfig (eraseEnv env "PACKR_FORMAT") o f).format) ∧
    (getEnv env "PACKR_ESLINT_CONFIG" = some "" →
      (userConfig env o f).eslint_config
        = (userConfig (eraseEnv env "PACKR_ESLINT_CONFIG") o
            f).eslint_config) ∧
    (getEnv env "PACKR_UGLIFY_RESERVED" = some "" →
      (userConfig env o f).uglify.reserved
        = (userConfig (eraseEnv env "PACKR_UGLIFY_RESERVED") o
            f).uglify.reserved) := by
  refine ⟨?_, ?_, ?_, ?_, ?_, ?_, ?_, ?_, ?_, ?_⟩ <;> intro h <;>
    simp [userConfig, jsOr, jsOrD, jsTruthy, h, getEnv_eraseEnv_self]

/-- Witness for C10: every one of the ten string-valued fields, with its
environment variable set to the empty string, merges exactly as with the
variable erased. -/
theorem userConfig_empty_env_witness :
    ((userConfig [("PACKR_SCSS_INPUT", "")]
        ({ scssInput := some "o.scss" } : Options) {}).scss_input
      = (userConfig (eraseEnv [("PACKR_SCSS_INPUT", "")] "PACKR_SCSS_INPUT")
          ({ scssInput := some "o.scss" } : Options) {}).scss_input) ∧
    ((userConfig [("PACKR_TARGET", "")]
        ({ target := some "es2017" } : Options) {}).target
      = (userConfig (eraseEnv [("PACKR_TARGET", "")] "PACKR_TARGET")
          ({ target := some "es2017" } : Options) {}).target) ∧
    ((userConfig [("PACKR_UGLIFY_RESERVED", "")] {}
        ({ uglify := some { reserved := some "x,y" } } :
          ConfigFile)).uglify.reserved
      = (userConfig (eraseEnv [("PACKR_UGLIFY_RESERVED", "")]
            "PACKR_UGLIFY_RESERVED") {}
          ({ uglify := some { reserved := some "x,y" } } :
            ConfigFile)).uglify.reserved) := by
  refine ⟨?_, ?_, ?_⟩
  · exact (userConfig_empty_env [("PACKR_SCSS_INPUT", "")]
      ({ scssInput := some "o.scss" } : Options) {}).1 rfl
  · exact (userConfig_empty_env [("PACKR_TARGET", "")]
      ({ target := some "es2017" } : Options) {}).2.2.2.2.2.2.1 rfl
  · exact (userConfig_empty_env [("PACKR_UGLIFY_RESERVED", "")] {}
      ({ uglify := some { reserved := some "x,y" } } :
        ConfigFile)).2.2.2.2.2.2.2.2.2 rfl

/-- Witness for C4 (amended): a concrete successful `config` construction
whose required paths and destination directory all pass the in-root
check. -/
theorem resolveConfig_sandboxes_witness :
    isPathInside "/r" "/r/in.scss" "/r" = true ∧
    isPathInside "/r" "/r/pub" "/r" = true := by
  have h := resolveConfig_sandboxes "/r" "/r"
      { scss_input := some "in.scss", scss_output := some "o.css",
        js_input := some "i.js", js_output := some "o.js",
        css_destination := some "pub", eslint_config := some "cfg.json" }
      { scss_input := "/r/in.scss", scss_output := "/r/o.css",
        js_input := "/r/i.js", js_output := "/r/o.js",
        css_destination := some "/r/pub", js_destination := none,
        eslint_config := some "cfg.json" }
      (by rfl)
  exact ⟨h.1, h.2.2.2.2.1 "/r/pub" rfl⟩

end Packr

-- sanity examples (path arithmetic matches Node)
example : Packr.segsOf "/root/./a" = ["root", ".", "a"] := by decide
example : Packr.resolveP "/cwd" "/root" "dist/app.css" = "/root/dist/app.css" := by decide
example : Packr.resolveP "/cwd" "/root" "/root/../x" = "/x" := by decide
example : Packr.relativeP "/cwd" "/root" "/root" = "" := by decide
example : Packr.relativeP "/cwd" "/root" "/etc/x" = "../etc/x" := by decide
example : Packr.isPathInside "/cwd" "/root/a" "/root" = true := by decide
example : Packr.isPathInside "/cwd" "/x" "/root" = false := by decide
example : Packr.basenameP "/root/dist/app.css" = "app.css" := by decide
example : Packr.dirnameP "/root/dist/app.css" = "/root/dist" := by decide
example : Packr.joinP "/root/public/css" "app.css" = "/root/public/css/app.css" := by decide
example : Packr.resolveSafe "/root" "../evil" "/root" = Except.error "Unsafe path detected: ../evil" := by rfl
example : Packr.resolveSafe "/root" "a/b" "/root" = Except.ok "/root/a/b" := by rfl

-- sanity examples (environment machinery)
example : Packr.parseLine " FOO = \"bar\" " = some ("FOO ", "bar") := by decide
example : Packr.parseLine "# comment" = none := by rfl
example : Packr.parseLine "A=b=c" = some ("A", "b=c") := by decide
example :
    Packr.loadEnvFromFile [(".env", ⟨0o644, ["FOO=1"]⟩)] ".env" false []
      = Except.ok [("FOO", "1")] := by rfl
example :
    Packr.loadEnvFilesCore
        [(".env", ⟨0o600, ["FOO=1"]⟩), (".env-production", ⟨0o600, ["FOO=2"]⟩)]
        [("NODE_ENV", "production")]
      = Except.ok ("production", [("FOO", "2"), ("NODE_ENV", "production")]) := by rfl
